import Mathlib

/-!
Verification of the tunnel-route resource handler
(`internal/provider/resource_cloudflare_tunnel_route.go`).

The handler is embedded shallowly: the Terraform state store (`d`) becomes an
explicit record of field values, the remote Cloudflare client becomes a
function parameter from request parameters to `Except`-wrapped results, and
each CRUD/import handler becomes a pure function from the old store to the new
store (or an error / runtime crash outcome).
-/

/-- A tunnel route as returned by the remote API (`cloudflare.TunnelRoute`). -/
structure TunnelRoute where
  tunnelID : String
  network : String
  comment : String
  virtualNetworkID : String
deriving DecidableEq

/-- Parameters of `client.ListTunnelRoutes` (`cloudflare.TunnelRoutesListParams`). -/
structure TunnelRoutesListParams where
  accountID : String
  isDeleted : Option Bool
  networkSubset : String
  networkSuperset : String
  virtualNetworkID : String
deriving DecidableEq

/-- Parameters of `client.CreateTunnelRoute` (`cloudflare.TunnelRoutesCreateParams`). -/
structure TunnelRoutesCreateParams where
  accountID : String
  tunnelID : String
  network : String
  comment : String
  virtualNetworkID : String
deriving DecidableEq

/-- Parameters of `client.UpdateTunnelRoute` (`cloudflare.TunnelRoutesUpdateParams`). -/
structure TunnelRoutesUpdateParams where
  accountID : String
  tunnelID : String
  network : String
  comment : String
  virtualNetworkID : String
deriving DecidableEq

/-- The Terraform state store `*schema.ResourceData`, restricted to the fields
this resource touches.  String fields read through `d.Get(...).(string)`
default to `""` when unset, exactly as the SDK guarantees; the `comment` field
is kept as an `Option String` because the source reads it with a checked type
assertion (`comment, ok := d.Get("comment").(string)`): `some c` is a present
string value, `none` a value for which the assertion fails. -/
structure StateStore where
  id : String
  account_id : String
  tunnel_id : String
  network : String
  virtual_network_id : String
  comment : Option String
deriving DecidableEq

/-- The remote client: one function per API call, each a fixed (pure) function
of its request parameters, returning either a result or an error message. -/
abbrev ListFn := TunnelRoutesListParams → Except String (List TunnelRoute)
abbrev CreateFn := TunnelRoutesCreateParams → Except String TunnelRoute
abbrev UpdateFn := TunnelRoutesUpdateParams → Except String TunnelRoute

/-- The list-request record built at the top of `resourceCloudflareTunnelRouteRead`:
account scoping, non-deleted only, `network` as both subset and superset bound
(exact match), and the virtual-network filter. -/
def tunnelRouteListParams (d : StateStore) : TunnelRoutesListParams :=
  { accountID := d.account_id
    isDeleted := some false
    networkSubset := d.network
    networkSuperset := d.network
    virtualNetworkID := d.virtual_network_id }

/-- `resourceCloudflareTunnelRouteRead`: list matching routes; zero results
clears the identifier; otherwise the first route is copied into the store
(`tunnel_id` and `network` unconditionally, `comment` only when the remote
comment is non-empty, `virtual_network_id` only when the store already held a
non-empty one). -/
def resourceCloudflareTunnelRouteRead (list : ListFn) (d : StateStore) :
    Except String StateStore :=
  let virtualNetworkID := d.virtual_network_id
  match list (tunnelRouteListParams d) with
  | Except.error e => Except.error ("failed to fetch Tunnel Route: " ++ e)
  | Except.ok tunnelRoutes =>
    match tunnelRoutes with
    | [] => Except.ok { d with id := "" }
    | tunnelRoute :: _ =>
      let d1 := { d with tunnel_id := tunnelRoute.tunnelID, network := tunnelRoute.network }
      let d2 :=
        if tunnelRoute.comment.length > 0 then { d1 with comment := some tunnelRoute.comment }
        else d1
      let d3 :=
        if virtualNetworkID ≠ "" then
          { d2 with virtual_network_id := tunnelRoute.virtualNetworkID }
        else d2
      Except.ok d3

/-- The create-request record built in `resourceCloudflareTunnelRouteCreate`:
the struct literal leaves `Comment` at its zero value `""`, then overwrites it
when the checked type assertion on the stored comment succeeds. -/
def tunnelRouteCreateParams (d : StateStore) : TunnelRoutesCreateParams :=
  let base : TunnelRoutesCreateParams :=
    { accountID := d.account_id
      tunnelID := d.tunnel_id
      network := d.network
      comment := ""
      virtualNetworkID := d.virtual_network_id }
  match d.comment with
  | some comment => { base with comment := comment }
  | none => base

/-- `resourceCloudflareTunnelRouteCreate`: send the create request; on success
set the identifier from the returned route's network (suffixed with the desired
virtual-network id when non-empty) and delegate to Read. -/
def resourceCloudflareTunnelRouteCreate (createFn : CreateFn) (list : ListFn)
    (d : StateStore) : Except String StateStore :=
  let virtualNetworkID := d.virtual_network_id
  match createFn (tunnelRouteCreateParams d) with
  | Except.error e =>
    Except.error ("error creating Tunnel Route for Network \"" ++ d.network ++ "\": " ++ e)
  | Except.ok newTunnelRoute =>
    let d1 :=
      if virtualNetworkID ≠ "" then
        { d with id := newTunnelRoute.network ++ "/" ++ virtualNetworkID }
      else
        { d with id := newTunnelRoute.network }
    resourceCloudflareTunnelRouteRead list d1

/-- The update-request record built in `resourceCloudflareTunnelRouteUpdate`:
`Comment` is written as the literal `""` and overwritten when the checked type
assertion on the stored comment succeeds. -/
def tunnelRouteUpdateParams (d : StateStore) : TunnelRoutesUpdateParams :=
  let base : TunnelRoutesUpdateParams :=
    { accountID := d.account_id
      tunnelID := d.tunnel_id
      network := d.network
      comment := ""
      virtualNetworkID := d.virtual_network_id }
  match d.comment with
  | some comment => { base with comment := comment }
  | none => base

/-- `resourceCloudflareTunnelRouteUpdate`: send the full-field update request;
the returned route is discarded and on success Read refreshes the store. -/
def resourceCloudflareTunnelRouteUpdate (updateFn : UpdateFn) (list : ListFn)
    (d : StateStore) : Except String StateStore :=
  match updateFn (tunnelRouteUpdateParams d) with
  | Except.error e =>
    Except.error ("error updating Tunnel Route for Network \"" ++ d.network ++ "\": " ++ e)
  | Except.ok _ => resourceCloudflareTunnelRouteRead list d

/-- `strings.SplitN(s, sep, n)` for a single-character separator and `n > 0`:
at most `n` substrings, the last one holding the unsplit remainder.  `acc`
holds the characters of the current substring in reverse. -/
def splitNGo (sep : Char) : Nat → List Char → List Char → List String
  | _, acc, [] => [String.mk acc.reverse]
  | n, acc, c :: cs =>
    if c = sep ∧ 1 < n then String.mk acc.reverse :: splitNGo sep (n - 1) [] cs
    else splitNGo sep n (c :: acc) cs

/-- Go's `strings.SplitN` (single-character separator, `n ≥ 0`). -/
def goSplitN (s : String) (sep : Char) (n : Nat) : List String :=
  if n = 0 then [] else splitNGo sep n [] s.data

/-- Outcome of the import handler: a seeded store, a returned error, or a
runtime crash (the out-of-bounds slice index in the 4-segment branch). -/
inductive ImportOutcome where
  | ok (d : StateStore)
  | err (msg : String)
  | crash
deriving DecidableEq

/-- The invalid-identifier message of `resourceCloudflareTunnelRouteImport`
(`%q` rendered as plain double quotes). -/
def invalidIdMsg (id : String) : String :=
  "invalid id (\"" ++ id ++ "\") specified, should be in format \"accountID/network\" or \"accountID/network/virtual_network_id\""

/-- The tail of the import handler: delegate to Read, collapsing any Read
failure to a fixed generic message. -/
def importReadResult (list : ListFn) (d : StateStore) : ImportOutcome :=
  match resourceCloudflareTunnelRouteRead list d with
  | Except.error _ => ImportOutcome.err "failed to read Tunnel Route state"
  | Except.ok d2 => ImportOutcome.ok d2

/-- `resourceCloudflareTunnelRouteImport`: split the incoming identifier on
`/` into at most 4 segments; reject counts other than 3 and 4; rebuild
`accountID` and `network` (segments 1 and 2–3); in the 4-segment branch the
source indexes `attributes[4]`, which is out of bounds for the 4-element
slice and crashes (modelled by `ImportOutcome.crash`); finally store the
fields and delegate to Read. -/
def resourceCloudflareTunnelRouteImport (list : ListFn) (d : StateStore) :
    ImportOutcome :=
  let attributes := goSplitN d.id '/' 4
  if attributes.length ≠ 3 ∧ attributes.length ≠ 4 then
    ImportOutcome.err (invalidIdMsg d.id)
  else
    let accountID := attributes.getD 0 ""
    let network := attributes.getD 1 "" ++ "/" ++ attributes.getD 2 ""
    let seeded : Option StateStore :=
      if attributes.length = 4 then
        match attributes[4]? with
        | none => none
        | some a4 =>
          some { d with id := network ++ "/" ++ a4, virtual_network_id := accountID }
      else
        some { d with id := network }
    match seeded with
    | none => ImportOutcome.crash
    | some d1 =>
      importReadResult list { d1 with account_id := accountID, network := network }

/-! Concrete fixtures used by witnesses and counterexamples. -/

/-- A sample remote route. -/
def wRoute : TunnelRoute :=
  { tunnelID := "tun1", network := "192.168.0.0/26", comment := "hello", virtualNetworkID := "vnet1" }

/-- A remote route whose network differs from any desired network below. -/
def wRouteOther : TunnelRoute :=
  { tunnelID := "tun2", network := "10.0.0.0/8", comment := "", virtualNetworkID := "" }

/-- A sample desired state. -/
def wState : StateStore :=
  { id := "old", account_id := "acct1", tunnel_id := "tun1", network := "192.168.0.0/26",
    virtual_network_id := "vnet1", comment := some "c0" }

/-- A list call that always finds exactly `wRoute`. -/
def listOne : ListFn := fun _ => Except.ok [wRoute]

/-- A list call that always finds nothing. -/
def listEmpty : ListFn := fun _ => Except.ok []

/-- A list call that always fails. -/
def listBoom : ListFn := fun _ => Except.error "boom"

/-- A create call that always succeeds with `wRoute`. -/
def createOkW : CreateFn := fun _ => Except.ok wRoute

/-- A create call that always succeeds with `wRouteOther`. -/
def createOkOther : CreateFn := fun _ => Except.ok wRouteOther

/-- An update call that always succeeds with `wRoute`. -/
def updateOkW : UpdateFn := fun _ => Except.ok wRoute

/-- A state whose identifier is the 1-segment string used by the spec's
format-error example. -/
def badIdState : StateStore :=
  { id := "bad-id", account_id := "", tunnel_id := "", network := "",
    virtual_network_id := "", comment := none }

/-- A state whose identifier has five raw slash-delimited segments. -/
def fiveSegState : StateStore :=
  { id := "a/b/c/d/e", account_id := "", tunnel_id := "", network := "",
    virtual_network_id := "", comment := none }

/-- A state whose identifier is a well-formed 4-segment import string. -/
def fourSegState : StateStore :=
  { id := "acct1/192.168.0.0/26/vnet1", account_id := "", tunnel_id := "", network := "",
    virtual_network_id := "", comment := none }

/-- A state whose identifier is a well-formed 3-segment import string. -/
def threeSegState : StateStore :=
  { id := "acct1/192.168.0.0/26", account_id := "", tunnel_id := "", network := "",
    virtual_network_id := "", comment := none }

/-! Theorems, one per claim, with shared helper lemmas. -/

/-- C5:  When the remote list call succeeds with zero entries, Read clears
the stored identifier, leaves every other stored field unchanged, and returns
no error. -/
theorem C5_read_not_found_clears_id (list : ListFn) (d : StateStore)
    (h : list (tunnelRouteListParams d) = Except.ok []) :
    resourceCloudflareTunnelRouteRead list d = Except.ok { d with id := "" } := by
  unfold resourceCloudflareTunnelRouteRead
  rw [h]

/-- Witness for C5 at a concrete store and remote. -/
theorem C5_witness :
    resourceCloudflareTunnelRouteRead listEmpty wState = Except.ok { wState with id := "" } :=
  C5_read_not_found_clears_id listEmpty wState rfl

/-- Helper: the cons case of Read, shared by several claims below. -/
theorem read_list_ok_cons (list : ListFn) (d : StateStore)
    (r : TunnelRoute) (rest : List TunnelRoute)
    (h : list (tunnelRouteListParams d) = Except.ok (r :: rest)) :
    resourceCloudflareTunnelRouteRead list d = Except.ok
      { d with
        tunnel_id := r.tunnelID
        network := r.network
        comment := if r.comment.length > 0 then some r.comment else d.comment
        virtual_network_id :=
          if d.virtual_network_id ≠ "" then r.virtualNetworkID else d.virtual_network_id } := by
  unfold resourceCloudflareTunnelRouteRead
  rw [h]
  dsimp only
  split <;> split <;> rfl

/-- C4:  When the remote list call succeeds with at least one route, Read
takes the first route and copies `tunnel_id` and `network` unconditionally,
`comment` only when the remote comment is non-empty, and `virtual_network_id`
only when the desired state's virtual-network id was non-empty; all other
fields (the identifier and account id included) are untouched. -/
theorem C4_read_copies_fields (list : ListFn) (d : StateStore)
    (r : TunnelRoute) (rest : List TunnelRoute)
    (h : list (tunnelRouteListParams d) = Except.ok (r :: rest)) :
    resourceCloudflareTunnelRouteRead list d = Except.ok
      { d with
        tunnel_id := r.tunnelID
        network := r.network
        comment := if r.comment.length > 0 then some r.comment else d.comment
        virtual_network_id :=
          if d.virtual_network_id ≠ "" then r.virtualNetworkID else d.virtual_network_id } :=
  read_list_ok_cons list d r rest h

/-- Witness for C4 at a concrete store and remote. -/
theorem C4_witness :
    resourceCloudflareTunnelRouteRead listOne wState = Except.ok
      { wState with
        tunnel_id := wRoute.tunnelID
        network := wRoute.network
        comment := if wRoute.comment.length > 0 then some wRoute.comment else wState.comment
        virtual_network_id :=
          if wState.virtual_network_id ≠ "" then wRoute.virtualNetworkID
          else wState.virtual_network_id } :=
  C4_read_copies_fields listOne wState wRoute [] rfl

/-- C3:  When the remote create call succeeds, Create sets the stored
identifier to the network alone if the desired virtual-network id is empty and
to `network ++ "/" ++ virtualNetworkID` otherwise, and then performs Read on
the resulting store to populate the remaining observed fields. -/
theorem C3_create_sets_id_then_reads (createFn : CreateFn) (list : ListFn)
    (d : StateStore) (r : TunnelRoute)
    (h : createFn (tunnelRouteCreateParams d) = Except.ok r) :
    resourceCloudflareTunnelRouteCreate createFn list d =
      resourceCloudflareTunnelRouteRead list
        { d with
          id :=
            if d.virtual_network_id = "" then r.network
            else r.network ++ "/" ++ d.virtual_network_id } := by
  unfold resourceCloudflareTunnelRouteCreate
  rw [h]
  dsimp only
  by_cases hv : d.virtual_network_id = "" <;> simp [hv]

/-- Witness for C3 at a concrete store and remote. -/
theorem C3_witness :
    resourceCloudflareTunnelRouteCreate createOkW listEmpty wState =
      resourceCloudflareTunnelRouteRead listEmpty
        { wState with
          id :=
            if wState.virtual_network_id = "" then wRoute.network
            else wRoute.network ++ "/" ++ wState.virtual_network_id } :=
  C3_create_sets_id_then_reads createOkW listEmpty wState wRoute rfl

/-- C10:  On a successful Create whose confirmatory Read finds a route, the
network component of the stored identifier is the network returned by the
remote create response (not the desired network), while the virtual-network
component comes from desired state. -/
theorem C10_create_id_uses_remote_network (createFn : CreateFn) (list : ListFn)
    (d : StateStore) (r x : TunnelRoute) (rest : List TunnelRoute)
    (hc : createFn (tunnelRouteCreateParams d) = Except.ok r)
    (hl : list (tunnelRouteListParams d) = Except.ok (x :: rest)) :
    Except.map StateStore.id (resourceCloudflareTunnelRouteCreate createFn list d) =
      Except.ok
        (if d.virtual_network_id = "" then r.network
         else r.network ++ "/" ++ d.virtual_network_id) := by
  unfold resourceCloudflareTunnelRouteCreate
  rw [hc]
  dsimp only
  split
  · next hv =>
    rw [read_list_ok_cons list { d with id := r.network ++ "/" ++ d.virtual_network_id } x rest hl]
    simp [hv, Except.map]
  · next hv =>
    rw [read_list_ok_cons list { d with id := r.network } x rest hl]
    simp only [ne_eq, not_not] at hv
    simp [hv, Except.map]

/-- Witness for C10 at a remote whose created route's network differs from the
desired one. -/
theorem C10_witness :
    Except.map StateStore.id (resourceCloudflareTunnelRouteCreate createOkOther listOne wState) =
      Except.ok
        (if wState.virtual_network_id = "" then wRouteOther.network
         else wRouteOther.network ++ "/" ++ wState.virtual_network_id) :=
  C10_create_id_uses_remote_network createOkOther listOne wState wRouteOther wRoute [] rfl rfl

/-- C6:  Update sends the full field set to the remote update call, with
the comment defaulting to the empty string and overwritten only when a valid
string value is present in desired state (so an absent comment is sent as
empty, a full replace); on success it performs Read on the unchanged store. -/
theorem C6_update_full_replace (updateFn : UpdateFn) (list : ListFn)
    (d : StateStore) (r : TunnelRoute)
    (h : updateFn (tunnelRouteUpdateParams d) = Except.ok r) :
    tunnelRouteUpdateParams d =
      { accountID := d.account_id
        tunnelID := d.tunnel_id
        network := d.network
        comment := d.comment.getD ""
        virtualNetworkID := d.virtual_network_id } ∧
    resourceCloudflareTunnelRouteUpdate updateFn list d =
      resourceCloudflareTunnelRouteRead list d := by
  constructor
  · unfold tunnelRouteUpdateParams
    cases d.comment <;> rfl
  · unfold resourceCloudflareTunnelRouteUpdate
    rw [h]

/-- C2:  Every import identifier that splits (with the source's
`strings.SplitN(id, "/", 4)`) into exactly 4 segments drives the import into
the branch that indexes `attributes[4]`, which is out of bounds for the
4-element slice: the operation crashes for every remote client, so the
success path of the 4-segment branch is unreachable. -/
theorem C2_import_four_segments_crash (list : ListFn) (d : StateStore)
    (h : (goSplitN d.id '/' 4).length = 4) :
    resourceCloudflareTunnelRouteImport list d = ImportOutcome.crash := by
  unfold resourceCloudflareTunnelRouteImport
  dsimp only
  rw [if_neg (fun hc => hc.2 h), if_pos h, List.getElem?_eq_none (by omega)]

/-- Witness for C2 at the spec's 4-segment example identifier. -/
theorem C2_witness :
    resourceCloudflareTunnelRouteImport listOne fourSegState = ImportOutcome.crash :=
  C2_import_four_segments_crash listOne fourSegState (by decide)

/-- C1 counterexample:  The 5-raw-segment identifier `"a/b/c/d/e"` does
not make Import fail with the invalid-identifier format error: the source's
`strings.SplitN(id, "/", 4)` folds it into 4 segments, so the import takes
the 4-segment branch and crashes on the out-of-bounds index instead of
returning any error. -/
theorem C1_counterexample :
    resourceCloudflareTunnelRouteImport listEmpty fiveSegState = ImportOutcome.crash ∧
    ¬ ∃ m, resourceCloudflareTunnelRouteImport listEmpty fiveSegState = ImportOutcome.err m := by
  constructor
  · decide
  · rintro ⟨m, hm⟩
    rw [(by decide :
      resourceCloudflareTunnelRouteImport listEmpty fiveSegState = ImportOutcome.crash)] at hm
    exact ImportOutcome.noConfusion hm

/-- C1 (amended):  For every import identifier whose segment count under
the source's `SplitN(·, "/", 4)` is neither 3 nor 4 — i.e. an identifier
with fewer than three slash-delimited segments, such as `"bad-id"` — Import
fails with the invalid-identifier format error, whose message includes the
offending string and the two accepted formats; no remote call is made (the
result does not depend on the remote client) and no field is written (the
outcome carries no store). -/
theorem C1_import_format_error (f g : ListFn) (d : StateStore)
    (h3 : (goSplitN d.id '/' 4).length ≠ 3)
    (h4 : (goSplitN d.id '/' 4).length ≠ 4) :
    resourceCloudflareTunnelRouteImport f d = ImportOutcome.err (invalidIdMsg d.id) ∧
    invalidIdMsg d.id =
      "invalid id (\"" ++ d.id ++
        "\") specified, should be in format \"accountID/network\" or \"accountID/network/virtual_network_id\"" ∧
    resourceCloudflareTunnelRouteImport f d = resourceCloudflareTunnelRouteImport g d := by
  have herr : ∀ fl : ListFn,
      resourceCloudflareTunnelRouteImport fl d = ImportOutcome.err (invalidIdMsg d.id) := by
    intro fl
    unfold resourceCloudflareTunnelRouteImport
    dsimp only
    rw [if_pos ⟨h3, h4⟩]
  exact ⟨herr f, rfl, (herr f).trans (herr g).symm⟩

/-- Witness for the amended C1 at the spec's 1-segment example identifier,
with two distinct remote clients. -/
theorem C1_witness :
    resourceCloudflareTunnelRouteImport listEmpty badIdState =
      ImportOutcome.err (invalidIdMsg badIdState.id) ∧
    invalidIdMsg badIdState.id =
      "invalid id (\"" ++ badIdState.id ++
        "\") specified, should be in format \"accountID/network\" or \"accountID/network/virtual_network_id\"" ∧
    resourceCloudflareTunnelRouteImport listEmpty badIdState =
      resourceCloudflareTunnelRouteImport listBoom badIdState :=
  C1_import_format_error listEmpty listBoom badIdState (by decide) (by decide)

/-- C7:  Every import identifier with exactly 3 slash-delimited segments
sets `account_id` to the first segment, sets `network` (and the stored
identifier) to the second and third segments rejoined with `/`, leaves the
virtual-network field untouched, and delegates to Read (whose failure is
collapsed by `importReadResult`). -/
theorem C7_import_three_segments (f : ListFn) (d : StateStore)
    (h : (goSplitN d.id '/' 4).length = 3) :
    resourceCloudflareTunnelRouteImport f d =
      importReadResult f
        { d with
          id := (goSplitN d.id '/' 4).getD 1 "" ++ "/" ++ (goSplitN d.id '/' 4).getD 2 ""
          account_id := (goSplitN d.id '/' 4).getD 0 ""
          network := (goSplitN d.id '/' 4).getD 1 "" ++ "/" ++ (goSplitN d.id '/' 4).getD 2 "" } := by
  unfold resourceCloudflareTunnelRouteImport
  dsimp only
  rw [if_neg (fun hc => hc.1 h), if_neg (by omega)]

/-- Witness for C7 at the spec's 3-segment example identifier. -/
theorem C7_witness :
    resourceCloudflareTunnelRouteImport listEmpty threeSegState =
      importReadResult listEmpty
        { threeSegState with
          id := (goSplitN threeSegState.id '/' 4).getD 1 "" ++ "/" ++
            (goSplitN threeSegState.id '/' 4).getD 2 ""
          account_id := (goSplitN threeSegState.id '/' 4).getD 0 ""
          network := (goSplitN threeSegState.id '/' 4).getD 1 "" ++ "/" ++
            (goSplitN threeSegState.id '/' 4).getD 2 "" } :=
  C7_import_three_segments listEmpty threeSegState (by decide)

/-- C8:  When the Read an import delegates to fails, the import as a whole
fails with the fixed generic message `"failed to read Tunnel Route state"`,
which does not mention the underlying cause `e`. -/
theorem C8_import_read_failure_generic (f : ListFn) (d : StateStore) (e : String)
    (h3 : (goSplitN d.id '/' 4).length = 3)
    (he : resourceCloudflareTunnelRouteRead f
      { d with
        id := (goSplitN d.id '/' 4).getD 1 "" ++ "/" ++ (goSplitN d.id '/' 4).getD 2 ""
        account_id := (goSplitN d.id '/' 4).getD 0 ""
        network := (goSplitN d.id '/' 4).getD 1 "" ++ "/" ++ (goSplitN d.id '/' 4).getD 2 "" } =
        Except.error e) :
    resourceCloudflareTunnelRouteImport f d =
      ImportOutcome.err "failed to read Tunnel Route state" := by
  unfold resourceCloudflareTunnelRouteImport
  dsimp only
  rw [if_neg (fun hc => hc.1 h3), if_neg (by omega)]
  unfold importReadResult
  dsimp only
  rw [he]

/-- Witness for C8: a remote whose list call always fails makes the delegated
Read fail, and the import reports only the generic message. -/
theorem C8_witness :
    resourceCloudflareTunnelRouteImport listBoom threeSegState =
      ImportOutcome.err "failed to read Tunnel Route state" :=
  C8_import_read_failure_generic listBoom threeSegState
    "failed to fetch Tunnel Route: boom" (by decide) rfl

/-- A fixed (pure) remote list function that answers the exact-match query for
`192.168.0.0/24` with a route whose network is the different string
`10.0.0.0/8`, and every other query with zero routes. -/
def idemList : ListFn := fun p =>
  if p.networkSubset = "192.168.0.0/24" then Except.ok [wRouteOther] else Except.ok []

/-- A desired state querying for `192.168.0.0/24`. -/
def idemState : StateStore :=
  { id := "192.168.0.0/24", account_id := "a", tunnel_id := "", network := "192.168.0.0/24",
    virtual_network_id := "", comment := none }

/-- The observed state after the first Read against `idemList`. -/
def idemMid : StateStore :=
  { id := "192.168.0.0/24", account_id := "a", tunnel_id := "tun2", network := "10.0.0.0/8",
    virtual_network_id := "", comment := none }

/-- C9 counterexample:  A remote that is a fixed function of the query
parameters under which Read is not idempotent: the first Read overwrites the
stored network with the (different) network of the returned route, the second
Read therefore issues a different query, finds nothing, and clears the
identifier — the two observed states differ. -/
theorem C9_counterexample :
    resourceCloudflareTunnelRouteRead idemList idemState = Except.ok idemMid ∧
    resourceCloudflareTunnelRouteRead idemList idemMid = Except.ok { idemMid with id := "" } ∧
    idemMid ≠ { idemMid with id := "" } :=
  ⟨rfl, rfl, by decide⟩

/-- C9 (amended):  Read is idempotent provided the remote — a fixed
function of the query parameters — gives the query induced by the post-Read
state the same answer as the original query (as happens in particular when
the returned route's fields match the query): a second Read then reproduces
the observed state of the first exactly. -/
theorem C9_read_idempotent_when_stable (f : ListFn) (s s1 : StateStore)
    (h1 : resourceCloudflareTunnelRouteRead f s = Except.ok s1)
    (h2 : f (tunnelRouteListParams s1) = f (tunnelRouteListParams s)) :
    resourceCloudflareTunnelRouteRead f s1 = Except.ok s1 := by
  cases hf : f (tunnelRouteListParams s) with
  | error e =>
    unfold resourceCloudflareTunnelRouteRead at h1
    rw [hf] at h1
    exact absurd h1 (by simp)
  | ok routes =>
    cases routes with
    | nil =>
      unfold resourceCloudflareTunnelRouteRead at h1
      rw [hf] at h1
      dsimp only at h1
      cases h1
      unfold resourceCloudflareTunnelRouteRead
      rw [h2, hf]
    | cons r rest =>
      rw [read_list_ok_cons f s r rest hf] at h1
      cases h1
      rw [read_list_ok_cons f _ r rest (h2.trans hf)]
      by_cases hc : r.comment.length > 0 <;>
      by_cases hv : s.virtual_network_id = "" <;>
      by_cases hrv : r.virtualNetworkID = "" <;>
      simp [hc, hv, hrv]

/-- Witness for the amended C9: with an always-empty remote the first Read
clears the identifier and a second Read reproduces that state. -/
theorem C9_witness :
    resourceCloudflareTunnelRouteRead listEmpty { wState with id := "" } =
      Except.ok { wState with id := "" } :=
  C9_read_idempotent_when_stable listEmpty wState { wState with id := "" } rfl rfl

/-- Witness for C6 at a concrete store and remote. -/
theorem C6_witness :
    tunnelRouteUpdateParams wState =
      { accountID := wState.account_id
        tunnelID := wState.tunnel_id
        network := wState.network
        comment := wState.comment.getD ""
        virtualNetworkID := wState.virtual_network_id } ∧
    resourceCloudflareTunnelRouteUpdate updateOkW listOne wState =
      resourceCloudflareTunnelRouteRead listOne wState :=
  C6_update_full_replace updateOkW listOne wState wRoute rfl
